import Mathlib

/-!
Verification of the diagnostics core of `cs2-network-diagnostics`
(`network_diagnostics/diagnostics.py`), as a shallow embedding.

Latencies are modelled by rationals; Python `None` values become `Option`.
Each definition mirrors one class or method of the source file.
-/

set_option autoImplicit false

namespace NetworkDiagnostics

/-! ### RTTData (`diagnostics.py`, class `RTTData`)

The per-target latency accumulator.  The fields `last`, `average`,
`minimum`, `maximum` and `jitter` are `None` in Python until the first
successful sample, guarded by the `_initial_data` flag; we model them as
`Option ℚ`.  `sent` and `received` are counters. -/

structure RTTData where
  initialData : Bool
  last : Option ℚ
  average : Option ℚ
  minimum : Option ℚ
  maximum : Option ℚ
  jitter : Option ℚ
  sent : ℕ
  received : ℕ
  deriving Repr, DecidableEq

/-- The state set up by `RTTData.__init__`. -/
def RTTData.init : RTTData :=
  { initialData := false, last := none, average := none, minimum := none,
    maximum := none, jitter := none, sent := 0, received := 0 }

/-- Property `RTTData.loss`: `0.0` when nothing was sent, else `1 - received / sent`. -/
def RTTData.loss (d : RTTData) : ℚ :=
  if d.sent = 0 then 0 else 1 - (d.received : ℚ) / (d.sent : ℚ)

/-- Property `RTTData.lost`: `sent - received`. -/
def RTTData.lost (d : RTTData) : ℕ :=
  d.sent - d.received

/-- Method `RTTData.update(latency)`.  On `None` only `sent` is incremented.  On a
value, `sent` and `received` are incremented first; the first successful
sample initialises every statistic; later samples update the running mean,
min/max and jitter.  Note that the source increments `self._sent` *before*
using it in `(self._sent * self._average + latency) / (self._sent + 1)`,
so the weight in the formula is the already-incremented counter. -/
def RTTData.update (d : RTTData) (latency? : Option ℚ) : RTTData :=
  match latency? with
  | none => { d with sent := d.sent + 1 }
  | some latency =>
    let d1 := { d with sent := d.sent + 1, received := d.received + 1 }
    if d1.initialData = false then
      { d1 with last := some latency, average := some latency,
                minimum := some latency, maximum := some latency,
                jitter := some 0, initialData := true }
    else
      let average := ((d1.sent : ℚ) * d1.average.getD 0 + latency) / ((d1.sent : ℚ) + 1)
      let minimum := if latency < d1.minimum.getD 0 then latency else d1.minimum.getD 0
      let maximum := if latency > d1.maximum.getD 0 then latency else d1.maximum.getD 0
      let lastJitter := |latency - d1.last.getD 0|
      let jitter := ((d1.sent : ℚ) * d1.jitter.getD 0 + lastJitter) / ((d1.sent : ℚ) + 1)
      { d1 with average := some average, minimum := some minimum,
                maximum := some maximum, jitter := some jitter,
                last := some latency }

/-- A finite sequence of `update` calls applied to a fresh accumulator. -/
def RTTData.applyUpdates (l : List (Option ℚ)) : RTTData :=
  l.foldl RTTData.update RTTData.init

/-! ### Helper lemmas about `RTTData` -/

/-- An `update` never lets `received` overtake `sent`, along any fold. -/
theorem RTTData.received_le_sent_foldl (l : List (Option ℚ)) (d : RTTData)
    (h : d.received ≤ d.sent) :
    (l.foldl RTTData.update d).received ≤ (l.foldl RTTData.update d).sent := by
  induction l generalizing d with
  | nil => simpa using h
  | cons x xs ih =>
    rw [List.foldl_cons]
    apply ih
    cases x with
    | none =>
      simp only [RTTData.update]
      omega
    | some v =>
      simp only [RTTData.update]
      split <;> simp <;> omega

/-- A run of pure timeouts only advances `sent`. -/
theorem RTTData.foldl_replicate_none (n : ℕ) (d : RTTData) :
    (List.replicate n (none : Option ℚ)).foldl RTTData.update d
      = { d with sent := d.sent + n } := by
  induction n generalizing d with
  | zero => simp
  | succ m ih =>
    rw [List.replicate_succ, List.foldl_cons, ih]
    cases d
    simp [RTTData.update, RTTData.mk.injEq]
    omega

end NetworkDiagnostics

namespace NetworkDiagnostics

/-! ### Claim theorems about `RTTData` -/

/-- C1, counterexample: the claim computes the running mean with the value of
`sent` *before* the update.  After `update(10)` the accumulator has `sent = 1`
and `average = 10`; the claim's formula then predicts
`(1 × 10 + 20) / (1 + 1) = 15` for `update(20)`, but the code (which
increments `sent` before using it) produces `(2 × 10 + 20) / 3 = 40 / 3`. -/
theorem rtt_average_pre_increment_cex :
    (RTTData.applyUpdates [some 10]).sent = 1
    ∧ (RTTData.applyUpdates [some 10]).average = some 10
    ∧ (RTTData.applyUpdates [some 10, some 20]).average = some (40 / 3)
    ∧ ((1 : ℚ) * 10 + 20) / ((1 : ℚ) + 1) = 15
    ∧ ((40 : ℚ) / 3) ≠ 15 := by
  refine ⟨?_, ?_, ?_, by norm_num, by norm_num⟩ <;>
    norm_num [RTTData.applyUpdates, RTTData.update, RTTData.init]

/-- C1, amended: on an accumulator that already holds data, `update(value)`
sets `average = ((sent_before + 1) × average_before + value) / (sent_before + 2)`
(the source increments `sent` before reusing it in the legacy decaying-mean
formula) and `jitter` by the analogous formula with `|value − last|`; for the
loss-free sequence `[10, 20, 10]` the exact intermediate averages are
`10, 40/3, 25/2` and the exact intermediate jitters are `0, 10/3, 5`. -/
theorem rtt_update_running_mean (d : RTTData) (v : ℚ) (h : d.initialData = true) :
    (d.update (some v)).average
      = some ((((d.sent : ℚ) + 1) * d.average.getD 0 + v) / ((d.sent : ℚ) + 2))
    ∧ (d.update (some v)).jitter
      = some ((((d.sent : ℚ) + 1) * d.jitter.getD 0 + |v - d.last.getD 0|) / ((d.sent : ℚ) + 2))
    ∧ (RTTData.applyUpdates [some 10]).average = some 10
    ∧ (RTTData.applyUpdates [some 10, some 20]).average = some (40 / 3)
    ∧ (RTTData.applyUpdates [some 10, some 20, some 10]).average = some (25 / 2)
    ∧ (RTTData.applyUpdates [some 10]).jitter = some 0
    ∧ (RTTData.applyUpdates [some 10, some 20]).jitter = some (10 / 3)
    ∧ (RTTData.applyUpdates [some 10, some 20, some 10]).jitter = some 5 := by
  refine ⟨?_, ?_, ?_, ?_, ?_, ?_, ?_, ?_⟩
  · simp only [RTTData.update, h]
    push_cast
    ring_nf
  · simp only [RTTData.update, h]
    push_cast
    ring_nf
  all_goals norm_num [RTTData.applyUpdates, RTTData.update, RTTData.init]

/-- Witness for `rtt_update_running_mean` at the accumulator that has seen
the single sample `10`, updated with the value `20`. -/
theorem rtt_update_running_mean_witness :
    (RTTData.applyUpdates [some 10]).initialData = true
    ∧ ((RTTData.applyUpdates [some 10]).update (some 20)).average
      = some (((((RTTData.applyUpdates [some 10]).sent : ℚ) + 1)
            * (RTTData.applyUpdates [some 10]).average.getD 0 + 20)
          / (((RTTData.applyUpdates [some 10]).sent : ℚ) + 2)) := by
  constructor
  · norm_num [RTTData.applyUpdates, RTTData.update, RTTData.init]
  · exact (rtt_update_running_mean (RTTData.applyUpdates [some 10]) 20
      (by norm_num [RTTData.applyUpdates, RTTData.update, RTTData.init])).1

/-- C5: along every finite sequence of successes and timeouts,
`received ≤ sent`; and `loss` is `0` when `sent = 0` and `1 − received/sent`
when `sent > 0`. -/
theorem rtt_loss_invariant (l : List (Option ℚ)) :
    (RTTData.applyUpdates l).received ≤ (RTTData.applyUpdates l).sent
    ∧ ((RTTData.applyUpdates l).sent = 0 → (RTTData.applyUpdates l).loss = 0)
    ∧ (0 < (RTTData.applyUpdates l).sent →
        (RTTData.applyUpdates l).loss
          = 1 - ((RTTData.applyUpdates l).received : ℚ)
              / ((RTTData.applyUpdates l).sent : ℚ)) := by
  refine ⟨RTTData.received_le_sent_foldl l RTTData.init (by simp [RTTData.init]), ?_, ?_⟩
  · intro h
    simp [RTTData.loss, h]
  · intro h
    rw [RTTData.loss, if_neg (by omega)]

/-- Witness for `rtt_loss_invariant` on the sequence
`[success 1, timeout]`. -/
theorem rtt_loss_invariant_witness :
    (RTTData.applyUpdates [some 1, none]).received ≤ (RTTData.applyUpdates [some 1, none]).sent
    ∧ (RTTData.applyUpdates [some 1, none]).loss
      = 1 - ((RTTData.applyUpdates [some 1, none]).received : ℚ)
          / ((RTTData.applyUpdates [some 1, none]).sent : ℚ) := by
  refine ⟨(rtt_loss_invariant [some 1, none]).1,
    (rtt_loss_invariant [some 1, none]).2.2 ?_⟩
  norm_num [RTTData.applyUpdates, RTTData.update, RTTData.init]

/-- C7: the first successful `update(v)`, after any number of timeouts,
sets `last = average = minimum = maximum = v` and `jitter = 0`. -/
theorem rtt_first_sample (n : ℕ) (v : ℚ) :
    (RTTData.applyUpdates (List.replicate n none ++ [some v])).last = some v
    ∧ (RTTData.applyUpdates (List.replicate n none ++ [some v])).average = some v
    ∧ (RTTData.applyUpdates (List.replicate n none ++ [some v])).minimum = some v
    ∧ (RTTData.applyUpdates (List.replicate n none ++ [some v])).maximum = some v
    ∧ (RTTData.applyUpdates (List.replicate n none ++ [some v])).jitter = some 0 := by
  have h : RTTData.applyUpdates (List.replicate n none ++ [some v])
      = RTTData.update { RTTData.init with sent := n } (some v) := by
    rw [RTTData.applyUpdates, List.foldl_append, RTTData.foldl_replicate_none]
    simp [RTTData.init]
  rw [h]
  simp [RTTData.update, RTTData.init]

end NetworkDiagnostics

namespace NetworkDiagnostics

/-! ### Target setters (`Diagnostics.set_icmp_external_test_server`,
`Diagnostics.set_icmp_cs2_test_server`)

A Python server value is either `None` or a string, modelled by
`Option String`.  Each setter touches only the stored target and its
`*_changed` flag, so the embedded state carries exactly those two fields. -/

structure ExternalServerState where
  server : Option String
  changed : Bool
  deriving Repr, DecidableEq

/-- Setter `set_icmp_external_test_server`: raises `ValueError` on `None` (the state
is untouched, since the raise precedes both assignments), otherwise stores
the value and sets the changed flag. -/
def set_icmp_external_test_server (st : ExternalServerState) (server : Option String) :
    Except String ExternalServerState :=
  match server with
  | none => Except.error "External server cannot be None"
  | some s => Except.ok { st with server := some s, changed := true }

structure Cs2ServerState where
  server : Option String
  changed : Bool
  deriving Repr, DecidableEq

/-- Setter `set_icmp_cs2_test_server`: returns early when the stored value already
equals the argument, otherwise stores it and sets the changed flag. -/
def set_icmp_cs2_test_server (st : Cs2ServerState) (server : Option String) :
    Cs2ServerState :=
  if st.server = server then st
  else { st with server := server, changed := true }

/-- C9, counterexample: the claim says the empty string is rejected and the
state left unchanged, but the source only tests `server is None`, so the
empty string is stored and the changed flag is set. -/
theorem set_external_server_empty_cex :
    set_icmp_external_test_server ⟨some "1.1.1.1", false⟩ (some "")
      = Except.ok ⟨some "", true⟩ := by
  rfl

/-- C9, amended: the setter raises exactly on `None` (leaving the state
unchanged); every string value — the empty string included — is stored and
sets the server-changed flag. -/
theorem set_external_server_amended (st : ExternalServerState) (v : Option String) :
    (v = none →
      set_icmp_external_test_server st v = Except.error "External server cannot be None")
    ∧ (∀ s, v = some s →
      set_icmp_external_test_server st v
        = Except.ok { st with server := some s, changed := true }) := by
  constructor
  · rintro rfl
    rfl
  · rintro s rfl
    rfl

/-- Witness for `set_external_server_amended`: at `None` the setter errors,
at `"example.com"` it stores the value and raises the flag. -/
theorem set_external_server_amended_witness :
    set_icmp_external_test_server ⟨some "1.1.1.1", false⟩ none
      = Except.error "External server cannot be None"
    ∧ set_icmp_external_test_server ⟨some "1.1.1.1", false⟩ (some "example.com")
      = Except.ok ⟨some "example.com", true⟩ :=
  ⟨(set_external_server_amended ⟨some "1.1.1.1", false⟩ none).1 rfl,
   (set_external_server_amended ⟨some "1.1.1.1", false⟩ (some "example.com")).2
      "example.com" rfl⟩

/-- C10: setting the CS2 target to the value it already holds changes
nothing (neither the stored target nor the changed flag), so the next
watchdog poll sees no change; a different value stores it and sets the
changed flag. -/
theorem set_cs2_server_frame (st : Cs2ServerState) (v : Option String) :
    (st.server = v → set_icmp_cs2_test_server st v = st)
    ∧ (st.server ≠ v →
      set_icmp_cs2_test_server st v = { st with server := v, changed := true }) := by
  constructor
  · intro h
    simp [set_icmp_cs2_test_server, h]
  · intro h
    simp [set_icmp_cs2_test_server, h]

/-- Witness for `set_cs2_server_frame`: re-setting the already-stored target
leaves the state bit-for-bit unchanged; a new target raises the flag. -/
theorem set_cs2_server_frame_witness :
    set_icmp_cs2_test_server ⟨some "cs2.example", false⟩ (some "cs2.example")
      = ⟨some "cs2.example", false⟩
    ∧ set_icmp_cs2_test_server ⟨some "cs2.example", false⟩ (some "other.example")
      = ⟨some "other.example", true⟩ :=
  ⟨(set_cs2_server_frame ⟨some "cs2.example", false⟩ (some "cs2.example")).1 rfl,
   (set_cs2_server_frame ⟨some "cs2.example", false⟩ (some "other.example")).2
      (by simp)⟩

end NetworkDiagnostics

namespace NetworkDiagnostics

/-! ### Watchdog lifecycle (`Diagnostics.start` / `Diagnostics.stop` /
`Diagnostics._clean_up`)

The state visible to `start`/`stop` is the `_running` flag, the liveness of
the watchdog control thread, and the session counters reset by
`_clean_up`.  The side effects of `start` (directory creation, firewall rules,
session logging, thread spawn) are recorded explicitly so that a no-op
start is visibly effect-free. -/

structure WatchdogState where
  running : Bool
  watchdogAlive : Bool
  activeInterruption : Bool
  totalInterruptions : ℕ
  deriving Repr, DecidableEq

/-- The state set up by `Diagnostics.__init__`. -/
def WatchdogState.init : WatchdogState :=
  { running := false, watchdogAlive := false,
    activeInterruption := false, totalInterruptions := 0 }

inductive StartEffect where
  | createFirewallRules
  | createSessionDir
  | startSessionLogging
  | spawnWatchdogThread
  deriving Repr, DecidableEq

/-- Method `Diagnostics.start`: returns immediately when the watchdog thread is
alive; otherwise sets `_running`, performs the session set-up effects and
spawns the control thread. -/
def Diagnostics.start (st : WatchdogState) : WatchdogState × List StartEffect :=
  if st.watchdogAlive then (st, [])
  else ({ st with running := true, watchdogAlive := true },
        [StartEffect.createFirewallRules, StartEffect.createSessionDir,
         StartEffect.startSessionLogging, StartEffect.spawnWatchdogThread])

/-- Method `Diagnostics.stop`: clears `_running` and (when blocking) joins the
thread; the join does not alter the modelled state. -/
def Diagnostics.stop (st : WatchdogState) : WatchdogState :=
  { st with running := false }

/-- Method `Diagnostics._clean_up`, run by the watchdog thread as it exits:
clears `_running`, resets the interruption counters and drops the thread. -/
def Diagnostics.cleanUp (st : WatchdogState) : WatchdogState :=
  { st with running := false, watchdogAlive := false,
            activeInterruption := false, totalInterruptions := 0 }

/-- One observable transition of the watchdog lifecycle: a (successful or
failed) `start`, a `stop`, the watchdog thread exiting through
`_clean_up`, or the watchdog loop updating the interruption fields while
the thread is alive.  A failed `start` comes in two flavours, matching the
source: the collision-scan, firewall-rule, session-logging and generic
directory-creation failure arms all run `self._running = False` before
re-raising (net effect: state unchanged), but the `except OSError` arm of
the directory creation re-raises a wrapped `OSError` *without* that reset,
and a thread-spawn failure likewise propagates after `_running` was set —
both leave `_running = True` with no live thread. -/
inductive WatchdogStep : WatchdogState → WatchdogState → Prop where
  | start (st : WatchdogState) : WatchdogStep st (Diagnostics.start st).1
  | startFailedReset (st : WatchdogState) (h : st.watchdogAlive = false) :
      WatchdogStep st st
  | startFailedNoReset (st : WatchdogState) (h : st.watchdogAlive = false) :
      WatchdogStep st { st with running := true }
  | stop (st : WatchdogState) : WatchdogStep st (Diagnostics.stop st)
  | watchdogExit (st : WatchdogState) (h : st.watchdogAlive = true) :
      WatchdogStep st (Diagnostics.cleanUp st)
  | interruptionUpdate (st : WatchdogState) (h : st.watchdogAlive = true)
      (ai : Bool) (n : ℕ) :
      WatchdogStep st { st with activeInterruption := ai, totalInterruptions := n }

/-- The lifecycle states reachable from the freshly constructed object. -/
inductive WatchdogReachable : WatchdogState → Prop where
  | init : WatchdogReachable WatchdogState.init
  | step {a b : WatchdogState} :
      WatchdogReachable a → WatchdogStep a b → WatchdogReachable b

/-- C8 (failing input): starting while the watchdog thread is alive is
indeed a no-op without session set-up effects (first conjunct), but
stopping while idle is not always one: a `start` on the fresh object whose
session-directory creation raises `OSError` re-raises through the
`except OSError` arm, which — unlike every other failure arm of `start` —
does not reset `self._running`, leaving a reachable idle state (no live
thread) with `_running = True`; `stop` then changes that state by clearing
the flag. -/
theorem watchdog_stop_after_failed_start_cex :
    Diagnostics.start ⟨true, true, false, 0⟩ = (⟨true, true, false, 0⟩, [])
    ∧ WatchdogReachable { WatchdogState.init with running := true }
    ∧ ({ WatchdogState.init with running := true } : WatchdogState).watchdogAlive
      = false
    ∧ Diagnostics.stop { WatchdogState.init with running := true }
      = WatchdogState.init
    ∧ ({ WatchdogState.init with running := true } : WatchdogState)
      ≠ WatchdogState.init := by
  refine ⟨rfl, ?_, rfl, rfl, by decide⟩
  exact WatchdogReachable.step WatchdogReachable.init
    (WatchdogStep.startFailedNoReset WatchdogState.init rfl)

end NetworkDiagnostics

namespace NetworkDiagnostics

/-! ### Connectivity tracking
(`Diagnostics._on_icmp_external_test_update` and the connectivity branch of
`Diagnostics._watchdog_run`)

The external-probe callback maintains `_icmp_external_test_seq_loss` and
`_internet_connectivity`; the watchdog poll loop turns the flag into
`_active_interruption` transitions and counts interruptions. -/

structure ConnState where
  internetConnectivity : Bool
  seqLoss : ℕ
  maxSeqLoss : ℕ
  activeInterruption : Bool
  totalInterruptions : ℕ
  deriving Repr, DecidableEq

/-- Callback `_on_icmp_external_test_update`: a timeout increments the consecutive
loss counter, a success restores the flag and zeroes the counter; then the
flag is cleared whenever the counter has reached `_icmp_max_seq_loss`. -/
def onIcmpExternalTestUpdate (st : ConnState) (lost : Bool) : ConnState :=
  let st1 :=
    if lost then { st with seqLoss := st.seqLoss + 1 }
    else { st with internetConnectivity := true, seqLoss := 0 }
  if st1.maxSeqLoss ≤ st1.seqLoss then { st1 with internetConnectivity := false }
  else st1

/-- The connectivity branch at the top of the watchdog poll loop: on a lost
connection and no active interruption, mark the interruption and count it;
on a restored connection with an active interruption, clear it. -/
def watchdogPollConnectivity (st : ConnState) : ConnState :=
  if st.internetConnectivity = false then
    if st.activeInterruption = false then
      { st with activeInterruption := true,
                totalInterruptions := st.totalInterruptions + 1 }
    else st
  else if st.activeInterruption then { st with activeInterruption := false }
  else st

/-- A run of `j` consecutive timeout callbacks from a stable state leaves
`seqLoss = j` and keeps the flag up exactly while `j` is below the
threshold. -/
theorem onIcmpExternalTestUpdate_lost_iter (st : ConnState) (k : ℕ)
    (hc : st.internetConnectivity = true) (hs : st.seqLoss = 0)
    (hk : st.maxSeqLoss = k) (hk1 : 1 ≤ k) :
    ∀ j, j ≤ k →
      (fun s => onIcmpExternalTestUpdate s true)^[j] st
        = { st with seqLoss := j, internetConnectivity := decide (j < k) } := by
  intro j
  induction j with
  | zero =>
    intro _
    cases st
    simp_all [decide_eq_true_eq]
    omega
  | succ m ih =>
    intro hm
    rw [Function.iterate_succ_apply', ih (by omega)]
    simp [onIcmpExternalTestUpdate, hk]
    rcases Nat.lt_or_ge (m + 1) k with h | h
    · rw [if_neg (by omega), decide_eq_true (show m < k by omega), decide_eq_true h]
    · rw [if_pos (by omega), decide_eq_false (show ¬(m + 1 < k) by omega)]

/-- C4: from a stable state (flag up, loss counter zero, no active
interruption) with configured threshold `k ≥ 1`: the flag stays up through
the first `k − 1` consecutive timeouts and goes down exactly at the `k`-th;
the first watchdog poll after that increments the interruption counter and
marks the interruption, and a second poll does not increment it again; one
subsequent successful callback puts the flag back up and zeroes the
counter. -/
theorem connectivity_transition (st : ConnState) (k : ℕ)
    (hc : st.internetConnectivity = true) (hs : st.seqLoss = 0)
    (ha : st.activeInterruption = false) (hk : st.maxSeqLoss = k) (hk1 : 1 ≤ k) :
    (∀ j, j < k →
      ((fun s => onIcmpExternalTestUpdate s true)^[j] st).internetConnectivity = true)
    ∧ ((fun s => onIcmpExternalTestUpdate s true)^[k] st).internetConnectivity = false
    ∧ (watchdogPollConnectivity
        ((fun s => onIcmpExternalTestUpdate s true)^[k] st)).totalInterruptions
      = st.totalInterruptions + 1
    ∧ (watchdogPollConnectivity
        ((fun s => onIcmpExternalTestUpdate s true)^[k] st)).activeInterruption = true
    ∧ (watchdogPollConnectivity (watchdogPollConnectivity
        ((fun s => onIcmpExternalTestUpdate s true)^[k] st))).totalInterruptions
      = st.totalInterruptions + 1
    ∧ (onIcmpExternalTestUpdate
        ((fun s => onIcmpExternalTestUpdate s true)^[k] st) false).internetConnectivity
      = true
    ∧ (onIcmpExternalTestUpdate
        ((fun s => onIcmpExternalTestUpdate s true)^[k] st) false).seqLoss = 0 := by
  have hit := onIcmpExternalTestUpdate_lost_iter st k hc hs hk hk1
  have hk' := hit k (le_refl k)
  refine ⟨?_, ?_, ?_, ?_, ?_, ?_, ?_⟩
  · intro j hj
    rw [hit j (by omega)]
    simp [hj]
  · rw [hk']
    simp
  · rw [hk']
    simp [watchdogPollConnectivity, ha]
  · rw [hk']
    simp [watchdogPollConnectivity, ha]
  · rw [hk']
    cases st
    simp_all [watchdogPollConnectivity]
  · rw [hk']
    simp [onIcmpExternalTestUpdate, hk, show ¬(k ≤ 0) by omega]
  · rw [hk']
    simp [onIcmpExternalTestUpdate, hk, show ¬(k ≤ 0) by omega]

/-- Witness for `connectivity_transition` at the source's configured
threshold `_icmp_max_seq_loss = 1`, from the initial stable state. -/
theorem connectivity_transition_witness :
    ((fun s => onIcmpExternalTestUpdate s true)^[1]
        ⟨true, 0, 1, false, 0⟩).internetConnectivity = false
    ∧ (watchdogPollConnectivity
        ((fun s => onIcmpExternalTestUpdate s true)^[1]
          ⟨true, 0, 1, false, 0⟩)).totalInterruptions = 0 + 1
    ∧ (onIcmpExternalTestUpdate
        ((fun s => onIcmpExternalTestUpdate s true)^[1]
          ⟨true, 0, 1, false, 0⟩) false).internetConnectivity = true := by
  have h := connectivity_transition ⟨true, 0, 1, false, 0⟩ 1 rfl rfl rfl rfl (le_refl 1)
  exact ⟨h.2.1, h.2.2.1, h.2.2.2.2.2.1⟩

end NetworkDiagnostics

namespace NetworkDiagnostics

/-! ### Traceroute formatting (`Traceroute.format`)

A completed run holds an ordered hop list (the library's hop objects carry
a distance, an address and per-hop statistics).  `format` walks the hops
keeping `last_distance`, emitting a synthesized `100.0%`-loss line for
every distance skipped (`for i in range(last_distance + 1, hop.distance)`) and
then the hop's own data line.  We model each emitted line as a `FormatRow`
keeping the fields the text is built from. -/

structure Hop where
  distance : ℕ
  address : String
  avg_rtt : ℚ
  min_rtt : ℚ
  max_rtt : ℚ
  jitter : ℚ
  packets_sent : ℕ
  packets_received : ℕ
  deriving Repr, DecidableEq

/-- One output line of `Traceroute.format`: the fields the text of the line
is rendered from.  `address = none` renders as `*`; `synthesized` marks the
gap-fill lines the loop invents for skipped distances. -/
structure FormatRow where
  distance : ℕ
  address : Option String
  lossPercent : ℚ
  synthesized : Bool
  deriving Repr, DecidableEq

/-- The placeholder line (distance, a `*` address, dashes, `100.0%` loss)
synthesized for a non-responding distance `i`. -/
def gapRow (i : ℕ) : FormatRow :=
  { distance := i, address := none, lossPercent := 100, synthesized := true }

/-- The data line for a responding hop, with its loss percentage
`(1 - packets_received / packets_sent) * 100`. -/
def hopRow (hop : Hop) : FormatRow :=
  { distance := hop.distance, address := some hop.address,
    lossPercent := (1 - (hop.packets_received : ℚ) / (hop.packets_sent : ℚ)) * 100,
    synthesized := false }

/-- The loop of `Traceroute.format`, with `last_distance` as accumulator. -/
def Traceroute.formatRows : ℕ → List Hop → List FormatRow
  | _, [] => []
  | lastDistance, hop :: rest =>
      (List.range' (lastDistance + 1) (hop.distance - (lastDistance + 1))).map gapRow
        ++ hopRow hop :: Traceroute.formatRows hop.distance rest

/-- Method `Traceroute.format` on a completed hop list (`last_distance` starts at 0). -/
def Traceroute.format (hops : List Hop) : List FormatRow :=
  Traceroute.formatRows 0 hops

/-- A strictly increasing chain keeps its head bound below every element. -/
theorem chain_lt_of_mem {a x : ℕ} {l : List ℕ}
    (h : List.Chain (· < ·) a l) (hx : x ∈ l) : a < x := by
  induction l generalizing a with
  | nil => cases hx
  | cons b t ih =>
    cases h with
    | cons hab hbt =>
      rcases List.mem_cons.1 hx with rfl | hxt
      · exact hab
      · exact lt_trans hab (ih hbt hxt)

/-- A strictly increasing chain ends at or above its head bound. -/
theorem chain_le_getLastD {a : ℕ} {l : List ℕ}
    (h : List.Chain (· < ·) a l) : a ≤ l.getLastD a := by
  induction l generalizing a with
  | nil => exact le_refl a
  | cons b t ih =>
    rw [List.getLastD_cons]
    cases h with
    | cons hab hbt => exact le_trans (le_of_lt hab) (ih hbt)

/-- With strictly increasing hop distances, the emitted distances are the
contiguous range from `last_distance + 1` to the final hop's distance. -/
theorem formatRows_map_distance (hops : List Hop) (lastDistance : ℕ)
    (h : List.Chain (· < ·) lastDistance (hops.map Hop.distance)) :
    (Traceroute.formatRows lastDistance hops).map FormatRow.distance
      = List.range' (lastDistance + 1)
          ((hops.map Hop.distance).getLastD lastDistance - lastDistance) := by
  induction hops generalizing lastDistance with
  | nil => simp [Traceroute.formatRows]
  | cons hop rest ih =>
    rw [List.map_cons] at h
    cases h with
    | cons hlt hchain =>
      have hdL : hop.distance ≤ (rest.map Hop.distance).getLastD hop.distance :=
        chain_le_getLastD hchain
      rw [Traceroute.formatRows, List.map_append, List.map_map, List.map_cons,
        show (FormatRow.distance ∘ gapRow) = id from rfl, List.map_id,
        ih hop.distance hchain, List.map_cons, List.getLastD_cons,
        show (hopRow hop).distance = hop.distance from rfl,
        ← List.range'_succ]
      have happ := List.range'_append (lastDistance + 1)
        (hop.distance - (lastDistance + 1))
        (((rest.map Hop.distance).getLastD hop.distance - hop.distance) + 1) 1
      rw [show (lastDistance + 1) + 1 * (hop.distance - (lastDistance + 1))
            = hop.distance from by omega] at happ
      rw [happ]
      congr 1
      omega

/-- Every row emitted for hops beyond `last_distance` sits at a strictly
larger distance. -/
theorem formatRows_distance_gt (hops : List Hop) (lastDistance : ℕ)
    (h : List.Chain (· < ·) lastDistance (hops.map Hop.distance)) :
    ∀ row ∈ Traceroute.formatRows lastDistance hops, lastDistance < row.distance := by
  induction hops generalizing lastDistance with
  | nil =>
    intro row hr
    simp [Traceroute.formatRows] at hr
  | cons hop rest ih =>
    rw [List.map_cons] at h
    cases h with
    | cons hlt hchain =>
      intro row hr
      rw [Traceroute.formatRows] at hr
      rcases List.mem_append.1 hr with hg | hrest
      · rcases List.mem_map.1 hg with ⟨i, hi, rfl⟩
        obtain ⟨j, hj, rfl⟩ := List.mem_range'.1 hi
        simp only [gapRow]
        omega
      · rcases List.mem_cons.1 hrest with rfl | hr2
        · simpa [hopRow] using hlt
        · exact lt_trans hlt (ih hop.distance hchain row hr2)

/-- A row is synthesized exactly when its distance answers to no hop, and a
synthesized row shows a `100%` loss and no address. -/
theorem formatRows_synthesized (hops : List Hop) (lastDistance : ℕ)
    (h : List.Chain (· < ·) lastDistance (hops.map Hop.distance)) :
    ∀ row ∈ Traceroute.formatRows lastDistance hops,
      (row.synthesized = true ↔ row.distance ∉ hops.map Hop.distance)
      ∧ (row.synthesized = true → row.lossPercent = 100 ∧ row.address = none) := by
  induction hops generalizing lastDistance with
  | nil =>
    intro row hr
    simp [Traceroute.formatRows] at hr
  | cons hop rest ih =>
    rw [List.map_cons] at h
    cases h with
    | cons hlt hchain =>
      intro row hr
      rw [Traceroute.formatRows] at hr
      rcases List.mem_append.1 hr with hg | hrest
      · rcases List.mem_map.1 hg with ⟨i, hi, rfl⟩
        obtain ⟨j, hj, hij⟩ := List.mem_range'.1 hi
        refine ⟨⟨fun _ hmem => ?_, fun _ => rfl⟩, fun _ => ⟨rfl, rfl⟩⟩
        rw [List.map_cons] at hmem
        rcases List.mem_cons.1 hmem with heq | hmem2
        · rw [show (gapRow i).distance = i from rfl] at heq
          omega
        · have := chain_lt_of_mem hchain hmem2
          rw [show (gapRow i).distance = i from rfl] at this
          omega
      · rcases List.mem_cons.1 hrest with rfl | hr2
        · refine ⟨⟨fun hfalse => by simp [hopRow] at hfalse, fun hnot => ?_⟩,
            fun hfalse => by simp [hopRow] at hfalse⟩
          exact absurd (by rw [List.map_cons]; exact List.mem_cons_self _ _) hnot
        · have hgt := formatRows_distance_gt rest hop.distance hchain row hr2
          have hih := ih hop.distance hchain row hr2
          refine ⟨?_, hih.2⟩
          rw [List.map_cons]
          constructor
          · intro hsynth hmem
            rcases List.mem_cons.1 hmem with heq | hmem2
            · omega
            · exact (hih.1.mp hsynth) hmem2
          · intro hnot
            exact hih.1.mpr fun hmem2 => hnot (List.mem_cons_of_mem _ hmem2)

/-- C6: for a completed hop list with strictly increasing positive
distances, `format` emits exactly one row per distance from `1` to the
maximum observed distance, and the rows at distances no hop answers to are
the synthesized placeholders showing `100.0%` loss (and `*` for the
address). -/
theorem traceroute_format_gap_fill (hops : List Hop)
    (h : List.Chain (· < ·) 0 (hops.map Hop.distance)) :
    (Traceroute.format hops).map FormatRow.distance
      = List.range' 1 ((hops.map Hop.distance).getLastD 0)
    ∧ ∀ row ∈ Traceroute.format hops,
        (row.synthesized = true ↔ row.distance ∉ hops.map Hop.distance)
        ∧ (row.synthesized = true → row.lossPercent = 100 ∧ row.address = none) := by
  constructor
  · simpa [Traceroute.format] using formatRows_map_distance hops 0 h
  · exact fun row hr => formatRows_synthesized hops 0 h row hr

/-- A responding hop at distance 1 (both probes answered). -/
def hopAtOne : Hop :=
  { distance := 1, address := "192.168.0.1", avg_rtt := 1, min_rtt := 1,
    max_rtt := 1, jitter := 0, packets_sent := 2, packets_received := 2 }

/-- A responding hop at distance 3 (one probe lost), with distance 2 absent. -/
def hopAtThree : Hop :=
  { distance := 3, address := "203.0.113.7", avg_rtt := 12, min_rtt := 11,
    max_rtt := 13, jitter := 1, packets_sent := 2, packets_received := 1 }

/-- Witness for `traceroute_format_gap_fill`: hops at distances 1 and 3
produce exactly the distances 1, 2, 3, and the row at the missing
distance 2 is the synthesized placeholder. -/
theorem traceroute_format_gap_fill_witness :
    (Traceroute.format [hopAtOne, hopAtThree]).map FormatRow.distance
      = List.range' 1 3
    ∧ ((gapRow 2).synthesized = true
        ↔ (gapRow 2).distance ∉ [hopAtOne, hopAtThree].map Hop.distance) := by
  have h := traceroute_format_gap_fill [hopAtOne, hopAtThree]
    (by simp [hopAtOne, hopAtThree])
  constructor
  · simpa [hopAtOne, hopAtThree] using h.1
  · exact (h.2 (gapRow 2)
      (by simp [Traceroute.format, Traceroute.formatRows, hopAtOne, hopAtThree])).1

end NetworkDiagnostics

namespace NetworkDiagnostics

/-! ### Speed test presets (`SpeedTest.SHORT_TESTS` / `SpeedTest.LONG_TESTS`)
and the interruption escalation loop (`Diagnostics._on_interruption_start`)

A `cfspeedtest.TestSpec` carries a per-request size, a request count, a
label and a direction.  The escalation loop's interaction with the other
threads (the loop-condition flags, each attempt's network outcome and the
measured duration of the short battery) is supplied per iteration as an
environment record; the loop records every `_run_speed_test` invocation
together with the battery it was handed. -/

inductive TestType where
  | Down
  | Up
  deriving Repr, DecidableEq

structure TestSpec where
  size : ℕ
  iterations : ℕ
  name : String
  type : TestType
  deriving Repr, DecidableEq

namespace SpeedTest

def LATENCY_TEST : TestSpec :=
  { size := 1, iterations := 20, name := "latency", type := TestType.Down }

def SHORT_TESTS : List TestSpec :=
  [LATENCY_TEST,
   { size := 5000000, iterations := 4, name := "20MB", type := TestType.Down },
   { size := 2500000, iterations := 4, name := "10MB", type := TestType.Up }]

def LONG_TESTS : List TestSpec :=
  [LATENCY_TEST,
   { size := 25000000, iterations := 4, name := "100MB", type := TestType.Down },
   { size := 5000000, iterations := 4, name := "20MB", type := TestType.Up }]

end SpeedTest

/-- The local flags of the retry loop in `_on_interruption_start`. -/
structure EscState where
  longSpeedTest : Bool
  tracerouteSucceeded : Bool
  shortSpeedTestSucceeded : Bool
  longSpeedTestSucceeded : Bool
  deriving Repr, DecidableEq

/-- The flags as initialised just before the loop. -/
def EscState.init : EscState :=
  { longSpeedTest := false, tracerouteSucceeded := false,
    shortSpeedTestSucceeded := false, longSpeedTestSucceeded := false }

/-- What the rest of the system presents to one loop iteration:
the two loop-condition flags as read at the top of the iteration, whether
each attempted sub-test comes back with a result, and whether the short
battery finished below `_speed_test_min_duration`. -/
structure EscEnv where
  running : Bool
  activeInterruption : Bool
  shortResultOk : Bool
  shortDurationFast : Bool
  longResultOk : Bool
  tracerouteHopsOk : Bool
  deriving Repr, DecidableEq

/-- How the escalation loop ended (within the supplied iterations). -/
inductive EscExit where
  /-- The `while` condition failed: `running ∧ activeInterruption` was
  false (its two conjuncts as read at that moment are recorded). -/
  | conditionExit (running activeInterruption : Bool)
  /-- The `break` after `traceroute ∧ short ∧ long` all succeeded. -/
  | success
  /-- The supplied iterations ran out with the loop still spinning. -/
  | stillLooping (st : EscState)
  deriving Repr, DecidableEq

/-- One invocation of `_run_speed_test`: whether it is the escalated
("long") attempt, and the battery of `TestSpec`s handed over.  The source
passes `SpeedTest.SHORT_TESTS` in both branches. -/
abbrev EscInvocations := List (Bool × List TestSpec)

/-- The retry loop of `_on_interruption_start`, one constructor case per
iteration, driven by a finite environment trace. -/
def escLoop (st : EscState) : List EscEnv → EscExit × EscInvocations
  | [] => (EscExit.stillLooping st, [])
  | env :: rest =>
    if env.running && env.activeInterruption then
      let (st1, shortInv) :=
        if !st.shortSpeedTestSucceeded then
          (if env.shortResultOk then
            { st with shortSpeedTestSucceeded := true,
                      longSpeedTest := st.longSpeedTest || env.shortDurationFast }
           else st,
           [(false, SpeedTest.SHORT_TESTS)])
        else (st, [])
      let (st2, longInv) :=
        if !st1.longSpeedTestSucceeded && st1.longSpeedTest then
          (if env.longResultOk then { st1 with longSpeedTestSucceeded := true }
           else st1,
           [(true, SpeedTest.SHORT_TESTS)])
        else (st1, [])
      let st3 :=
        if !st2.tracerouteSucceeded then
          (if env.tracerouteHopsOk then { st2 with tracerouteSucceeded := true }
           else st2)
        else st2
      if st3.tracerouteSucceeded && st3.shortSpeedTestSucceeded
          && st3.longSpeedTestSucceeded then
        (EscExit.success, shortInv ++ longInv)
      else
        let (exit2, invs) := escLoop st3 rest
        (exit2, shortInv ++ longInv ++ invs)
    else
      (EscExit.conditionExit env.running env.activeInterruption, [])

/-- An iteration during which every attempted sub-test succeeds but the
short battery takes at least the minimum duration (so the long battery is
never deemed necessary). -/
def slowShortEnv : EscEnv :=
  { running := true, activeInterruption := true, shortResultOk := true,
    shortDurationFast := false, longResultOk := true, tracerouteHopsOk := true }

/-- An iteration during which every attempted sub-test succeeds and the
short battery finishes below the minimum duration. -/
def fastShortEnv : EscEnv :=
  { running := true, activeInterruption := true, shortResultOk := true,
    shortDurationFast := true, longResultOk := true, tracerouteHopsOk := true }

/-- The loop state once the traceroute and the (slow) short speed test have
both succeeded: the long test was never deemed necessary, so
`longSpeedTestSucceeded` can never become true. -/
def slowShortStuckState : EscState :=
  { longSpeedTest := false, tracerouteSucceeded := true,
    shortSpeedTestSucceeded := true, longSpeedTestSucceeded := false }

/-- With every sub-test already as satisfied as the slow-short scenario can
make them, further iterations change nothing and never take the success
exit. -/
theorem escLoop_slow_fixed (n : ℕ) :
    escLoop slowShortStuckState (List.replicate n slowShortEnv)
      = (EscExit.stillLooping slowShortStuckState, []) := by
  induction n with
  | zero => rfl
  | succ m ih =>
    rw [List.replicate_succ]
    simpa [escLoop, slowShortEnv, slowShortStuckState] using ih

/-- C2 (failing input): when the fast traceroute and the short speed test
both succeed at once but the short battery takes at least the minimum
duration — so by the claim the long test is not required and the loop
should exit by the success path — the loop never does: after the first
iteration both required flags are set yet after arbitrarily many further
retry iterations it is still spinning, because the `break` condition also
demands `long_speed_test_succeeded`, which is initialised false and only
ever set when the long test was deemed necessary.  The loop can then end
only through its `while` condition, e.g. once `running` is false. -/
theorem escalation_slow_short_no_success (n : ℕ) :
    slowShortStuckState.tracerouteSucceeded = true
    ∧ slowShortStuckState.shortSpeedTestSucceeded = true
    ∧ (escLoop EscState.init (List.replicate (n + 1) slowShortEnv)).1
      = EscExit.stillLooping slowShortStuckState
    ∧ (escLoop slowShortStuckState [{ slowShortEnv with running := false }]).1
      = EscExit.conditionExit false true := by
  refine ⟨rfl, rfl, ?_, rfl⟩
  rw [List.replicate_succ]
  have hstep : escLoop EscState.init (slowShortEnv :: List.replicate n slowShortEnv)
      = ((escLoop slowShortStuckState (List.replicate n slowShortEnv)).1,
         (false, SpeedTest.SHORT_TESTS)
           :: (escLoop slowShortStuckState (List.replicate n slowShortEnv)).2) := rfl
  rw [hstep, escLoop_slow_fixed n]

/-- C3 (failing input): when the short battery finishes below the minimum
duration, the loop deems a long speed test necessary and immediately runs
it — but hands `_run_speed_test` `SpeedTest.SHORT_TESTS` again, not
`SpeedTest.LONG_TESTS`; the two presets differ, `LONG_TESTS` being the
battery with the 100MB download and 20MB upload transfers. -/
theorem escalation_long_battery_cex :
    escLoop EscState.init [fastShortEnv]
      = (EscExit.success,
         [(false, SpeedTest.SHORT_TESTS), (true, SpeedTest.SHORT_TESTS)])
    ∧ SpeedTest.SHORT_TESTS ≠ SpeedTest.LONG_TESTS
    ∧ SpeedTest.LONG_TESTS
      = [SpeedTest.LATENCY_TEST,
         { size := 25000000, iterations := 4, name := "100MB", type := TestType.Down },
         { size := 5000000, iterations := 4, name := "20MB", type := TestType.Up }] :=
  ⟨rfl, by decide, rfl⟩

end NetworkDiagnostics
